import Mathlib

/-!
Shallow embedding of the pipeline orchestrator of the CasterAgent repository
(`src/ai_daily2video/application/use_cases/generate_daily_video.py` together
with the domain model of `src/ai_daily2video/domain/models.py` and the
collaborator signatures of `src/daily2video/domain/interfaces.py`).

Modelling choices, each forced by the shallow embedding:
* `datetime.utcnow()` is called twice per run (at start and at completion);
  the two timestamps are supplied by the environment as `t0` and `t1` (`Nat`).
* `Path` objects are carried as their string rendering, since the orchestrator
  only ever applies `str(...)` to them.
* Float durations never take part in any computation of the orchestrator; they
  are carried as integers (the spec even permits a negative sentinel).
* Each collaborator is a pure function returning `Except Exc _`: `Except.error`
  models the collaborator raising, `Except.ok` a normal return.  The logger and
  the notifier are modelled as never-failing sinks: each call to them is
  recorded as an effect in the run trace.
* Python truthiness is translated literally: `if article_id` is false for
  `None` and for `0`; `if youtube_video_id` is false for `None` and for `""`.
-/

/-- Exceptions flowing through the pipeline: the repository's `PipelineError`
(a `RuntimeError` built from a step tag and a message, models.py lines 88-93)
or any other exception raised by a collaborator, identified by its `str()`. -/
inductive Exc : Type
  | pipelineError (tag : String) (message : String)
  | other (message : String)
deriving DecidableEq, Inhabited

/-- `str(exc)`: `PipelineError.__init__` passes
`f"Pipeline step \x27{step}\x27 failed: {message}"` to `RuntimeError`. -/
def Exc.pyStr : Exc → String
  | Exc.pipelineError tag message =>
      "Pipeline step \x27" ++ tag ++ "\x27 failed: " ++ message
  | Exc.other message => message

/-- models.py lines 9-17. -/
structure Article : Type where
  article_id : Int
  title : String
  markdown_body : String
  category : Option String := none
  tags : List String := []
  url : Option String := none
  published_at : Option Nat := none
deriving DecidableEq, Inhabited

/-- models.py lines 20-23. -/
structure ScriptLine : Type where
  speaker : String
  text : String
deriving DecidableEq, Inhabited

/-- models.py lines 26-31. -/
structure Script : Type where
  article_id : Int
  lines : List ScriptLine
  raw_text : String
  file_path : Option String := none
deriving DecidableEq, Inhabited

/-- models.py lines 34-38. -/
structure AudioAsset : Type where
  article_id : Int
  file_path : String
  duration_seconds : Int
deriving DecidableEq, Inhabited

/-- models.py lines 41-45. -/
structure SubtitleSegment : Type where
  start_seconds : Int
  end_seconds : Int
  text : String
deriving DecidableEq, Inhabited

/-- models.py lines 48-52. -/
structure SubtitleFile : Type where
  article_id : Int
  file_path : String
  segments : List SubtitleSegment
deriving DecidableEq, Inhabited

/-- models.py lines 55-58. -/
structure GeneratedImage : Type where
  article_id : Int
  file_path : String
deriving DecidableEq, Inhabited

/-- models.py lines 61-65. -/
structure VideoAsset : Type where
  article_id : Int
  file_path : String
  duration_seconds : Int
deriving DecidableEq, Inhabited

/-- models.py lines 68-77. -/
structure VideoMetadata : Type where
  article_id : Int
  title : String
  description : String
  tags : List String
  category_id : String := "28"
  privacy_status : String := "public"
  language : String := "ja"
  file_path : Option String := none
deriving DecidableEq, Inhabited

/-- models.py lines 80-85: the single mutable run record. -/
structure PipelineStatus : Type where
  status : String
  started_at : Nat
  completed_at : Option Nat := none
  notes : List String := []
deriving DecidableEq, Inhabited

/-- generate_daily_video.py lines 27-29. -/
structure GenerateDailyVideoInput : Type where
  article_id : Option Int := none
deriving DecidableEq, Inhabited

/-- generate_daily_video.py lines 32-37. -/
structure GenerateDailyVideoResult : Type where
  status : PipelineStatus
  video : Option VideoAsset
  metadata : Option VideoMetadata
  youtube_video_id : Option String
deriving DecidableEq, Inhabited

/-- One structured payload passed to `PipelineLogger.log`, keyed by its
`event` entry (generate_daily_video.py lines 67-111). -/
inductive LogEvent : Type
  | pipeline_started (started_at : Nat)
  | article_selected (article_id : Int)
  | script_generated (article_id : Int)
  | audio_generated (file_path : String)
  | subtitles_generated (file_path : String)
  | background_generated (file_path : String)
  | metadata_generated (title : String)
  | video_composed (file_path : String)
  | video_uploaded (youtube_id : String)
  | pipeline_failed (error : String)
deriving DecidableEq, Inhabited

/-- One call to `Notifier.notify` (interfaces.py line 58: the keyword `level`
defaults to `"info"`). -/
structure Notification : Type where
  message : String
  level : String
  extra : List (String × String)
deriving DecidableEq, Inhabited

/-- One invocation of a stage collaborator, together with the arguments the
orchestrator passed to it. -/
inductive Call : Type
  | by_id (article_id : Int)
  | latest
  | build_script (article : Article)
  | synthesize (script : Script)
  | generate_subtitles (script : Script) (audio : AudioAsset)
  | create_image (article : Article)
  | build_metadata (article : Article) (script : Script)
  | compose (audio : AudioAsset) (subtitles : SubtitleFile) (background : GeneratedImage)
  | publish (video : VideoAsset) (metadata : VideoMetadata)
deriving DecidableEq, Inhabited

/-- One observable effect of a run, in program order: a collaborator call, a
structured log, a notification, or an assignment to `status.status`. -/
inductive Effect : Type
  | call (c : Call)
  | log (e : LogEvent)
  | notify (n : Notification)
  | set_status (label : String)
deriving DecidableEq, Inhabited

/-- The environment of one run: the nine injected collaborators (logger and
notifier excluded, being effect sinks) plus the two wall-clock readings.  Each
collaborator either returns a value or raises. -/
structure Collaborators : Type where
  by_id : Int → Except Exc (Option Article)
  latest : Except Exc (Option Article)
  build_script : Article → Except Exc Script
  synthesize : Script → Except Exc AudioAsset
  generate_subtitles : Script → AudioAsset → Except Exc SubtitleFile
  create_image : Article → Except Exc GeneratedImage
  build_metadata : Article → Script → Except Exc VideoMetadata
  compose : AudioAsset → SubtitleFile → GeneratedImage → Except Exc VideoAsset
  publish : VideoAsset → VideoMetadata → Except Exc (Option String)
  t0 : Nat
  t1 : Nat

/-- The complete observable outcome of one `execute` call: its effect trace,
the final state of the single `PipelineStatus` record, and either the returned
result or the propagated exception. -/
structure RunOutcome : Type where
  trace : List Effect
  status : PipelineStatus
  result : Except Exc GenerateDailyVideoResult

/-- Message of the `PipelineError` raised when no article resolves
(generate_daily_video.py line 122). -/
def notFoundMessage : String := "対象の記事が見つかりませんでした"

/-- The success notification of line 105: default level `"info"`, the final
status label in the extra payload. -/
def successNotification (label : String) : Notification :=
  { message := "AI-Daily動画の自動生成が完了しました"
    level := "info"
    extra := [("status", label)] }

/-- The failure notification of lines 112-116. -/
def errNotification (message : String) : Notification :=
  { message := "AI-Daily動画の自動生成でエラーが発生しました"
    level := "error"
    extra := [("error", message)] }

/-- Line 120: `self._article_repo.by_id(article_id) if article_id else
self._article_repo.latest()`.  Python truthiness makes both `None` and `0`
select the `latest()` branch.  Returns the call made and its outcome. -/
def repo_lookup (env : Collaborators) (article_id : Option Int) :
    Call × Except Exc (Option Article) :=
  match article_id with
  | some i => if i = 0 then (Call.latest, env.latest) else (Call.by_id i, env.by_id i)
  | none => (Call.latest, env.latest)

/-- `_resolve_article` (lines 119-123): the repository lookup followed by the
`if not article: raise PipelineError("article", ...)` guard. -/
def resolve_article (env : Collaborators) (article_id : Option Int) :
    Call × Except Exc Article :=
  let lookup := repo_lookup env article_id
  (lookup.1,
    match lookup.2 with
    | Except.error e => Except.error e
    | Except.ok none => Except.error (Exc.pipelineError "article" notFoundMessage)
    | Except.ok (some a) => Except.ok a)

/-- Line 66 (status record created) and line 67 (`pipeline_started` log). -/
def startTrace (env : Collaborators) : List Effect :=
  [Effect.set_status "started", Effect.log (LogEvent.pipeline_started env.t0)]

/-- Lines 70-71. -/
def articleChunk (a : Article) : List Effect :=
  [Effect.set_status "article_ready", Effect.log (LogEvent.article_selected a.article_id)]

/-- Lines 74-75. -/
def scriptChunk (a : Article) : List Effect :=
  [Effect.set_status "script_ready", Effect.log (LogEvent.script_generated a.article_id)]

/-- Lines 78-79. -/
def audioChunk (au : AudioAsset) : List Effect :=
  [Effect.set_status "audio_ready", Effect.log (LogEvent.audio_generated au.file_path)]

/-- Lines 82-83. -/
def subtitlesChunk (sub : SubtitleFile) : List Effect :=
  [Effect.set_status "subtitles_ready", Effect.log (LogEvent.subtitles_generated sub.file_path)]

/-- Lines 86-87. -/
def backgroundChunk (bg : GeneratedImage) : List Effect :=
  [Effect.set_status "background_ready", Effect.log (LogEvent.background_generated bg.file_path)]

/-- Lines 90-91. -/
def metadataChunk (md : VideoMetadata) : List Effect :=
  [Effect.set_status "metadata_ready", Effect.log (LogEvent.metadata_generated md.title)]

/-- Lines 94-95. -/
def videoChunk (v : VideoAsset) : List Effect :=
  [Effect.set_status "video_ready", Effect.log (LogEvent.video_composed v.file_path)]

/-- Lines 99-100: the truthy branch of the publish fork. -/
def uploadedChunk (youtube_id : String) : List Effect :=
  [Effect.set_status "uploaded", Effect.log (LogEvent.video_uploaded youtube_id)]

/-- Line 102: the falsy branch of the publish fork logs nothing. -/
def savedChunk : List Effect := [Effect.set_status "video_saved"]

/-- Line 105: the success notification, after `completed_at` is stamped. -/
def doneChunk (label : String) : List Effect :=
  [Effect.notify (successNotification label)]

/-- Lines 108-116: the single `except` handler, in program order: set
`failed`, log `pipeline_failed`, send the error notification.  (`completed_at`
and the note are fields of the status record, not trace effects.) -/
def failChunk (e : Exc) : List Effect :=
  [Effect.set_status "failed",
   Effect.log (LogEvent.pipeline_failed (Exc.pyStr e)),
   Effect.notify (errNotification (Exc.pyStr e))]

/-- The `try` block of `execute` (lines 68-106): on success, the trace plus
the final label, the publisher's returned id, the video, and the metadata; on
an exception, the trace accumulated so far plus the exception. -/
def execute_body (env : Collaborators) (article_id : Option Int) :
    List Effect × Except Exc (String × Option String × VideoAsset × VideoMetadata) :=
  let res := resolve_article env article_id
  let tr := startTrace env ++ [Effect.call res.1]
  match res.2 with
  | Except.error e => (tr, Except.error e)
  | Except.ok article =>
    let tr := tr ++ articleChunk article ++ [Effect.call (Call.build_script article)]
    match env.build_script article with
    | Except.error e => (tr, Except.error e)
    | Except.ok script =>
      let tr := tr ++ scriptChunk article ++ [Effect.call (Call.synthesize script)]
      match env.synthesize script with
      | Except.error e => (tr, Except.error e)
      | Except.ok audio =>
        let tr := tr ++ audioChunk audio ++ [Effect.call (Call.generate_subtitles script audio)]
        match env.generate_subtitles script audio with
        | Except.error e => (tr, Except.error e)
        | Except.ok subtitles =>
          let tr := tr ++ subtitlesChunk subtitles ++ [Effect.call (Call.create_image article)]
          match env.create_image article with
          | Except.error e => (tr, Except.error e)
          | Except.ok background =>
            let tr := tr ++ backgroundChunk background ++ [Effect.call (Call.build_metadata article script)]
            match env.build_metadata article script with
            | Except.error e => (tr, Except.error e)
            | Except.ok metadata =>
              let tr := tr ++ metadataChunk metadata ++ [Effect.call (Call.compose audio subtitles background)]
              match env.compose audio subtitles background with
              | Except.error e => (tr, Except.error e)
              | Except.ok video =>
                let tr := tr ++ videoChunk video ++ [Effect.call (Call.publish video metadata)]
                match env.publish video metadata with
                | Except.error e => (tr, Except.error e)
                | Except.ok youtube_video_id =>
                  match youtube_video_id with
                  | some s =>
                    if s = "" then
                      (tr ++ savedChunk ++ doneChunk "video_saved",
                       Except.ok ("video_saved", some s, video, metadata))
                    else
                      (tr ++ uploadedChunk s ++ doneChunk "uploaded",
                       Except.ok ("uploaded", some s, video, metadata))
                  | none =>
                      (tr ++ savedChunk ++ doneChunk "video_saved",
                       Except.ok ("video_saved", none, video, metadata))

/-- `GenerateDailyVideo.execute` (lines 65-117): the `try` body plus the
single top-level `except` handler.  On success the result embeds the (single)
status record, with `completed_at := t1` and untouched empty notes; on an
exception the handler finalizes the same record and re-raises the original
exception unchanged. -/
def execute (env : Collaborators) (command : GenerateDailyVideoInput) : RunOutcome :=
  match execute_body env command.article_id with
  | (tr, Except.ok (label, youtube_video_id, video, metadata)) =>
    let status : PipelineStatus :=
      { status := label, started_at := env.t0, completed_at := some env.t1, notes := [] }
    { trace := tr
      status := status
      result := Except.ok
        { status := status, video := some video
          metadata := some metadata, youtube_video_id := youtube_video_id } }
  | (tr, Except.error e) =>
    { trace := tr ++ failChunk e
      status :=
        { status := "failed", started_at := env.t0
          completed_at := some env.t1, notes := [Exc.pyStr e] }
      result := Except.error e }

/-- The log payloads of a trace, in order. -/
def traceLogs (tr : List Effect) : List LogEvent :=
  tr.filterMap fun ef => match ef with
    | Effect.log e => some e
    | _ => none

/-- The collaborator calls of a trace, in order. -/
def traceCalls (tr : List Effect) : List Call :=
  tr.filterMap fun ef => match ef with
    | Effect.call c => some c
    | _ => none

/-- The notifications of a trace, in order. -/
def traceNotifications (tr : List Effect) : List Notification :=
  tr.filterMap fun ef => match ef with
    | Effect.notify n => some n
    | _ => none

/-- The successive values of `status.status`, in order of assignment. -/
def traceStatuses (tr : List Effect) : List String :=
  tr.filterMap fun ef => match ef with
    | Effect.set_status l => some l
    | _ => none

/-! ### Per-branch run shapes

The orchestrator is a linear chain; every run falls into one of twelve
branches: a failure at one of the nine fallible points (the repository call,
the empty-resolution guard, or one of the seven later stages), or one of the
three publish-fork outcomes.  The `tr…` definitions below name the effect
prefix accumulated up to each fallible point, and each `run_…` lemma gives the
exact `RunOutcome` of its branch.  `run_cases` states that the branch
conditions are exhaustive. -/

/-- Trace up to (and including) the repository call. -/
def trR (env : Collaborators) (c : Call) : List Effect :=
  startTrace env ++ [Effect.call c]

/-- Trace up to (and including) the script-generator call. -/
def trA (env : Collaborators) (c : Call) (a : Article) : List Effect :=
  trR env c ++ articleChunk a ++ [Effect.call (Call.build_script a)]

/-- Trace up to (and including) the audio-synthesizer call. -/
def trS (env : Collaborators) (c : Call) (a : Article) (s : Script) : List Effect :=
  trA env c a ++ scriptChunk a ++ [Effect.call (Call.synthesize s)]

/-- Trace up to (and including) the subtitle-generator call. -/
def trAu (env : Collaborators) (c : Call) (a : Article) (s : Script)
    (au : AudioAsset) : List Effect :=
  trS env c a s ++ audioChunk au ++ [Effect.call (Call.generate_subtitles s au)]

/-- Trace up to (and including) the background-generator call. -/
def trSub (env : Collaborators) (c : Call) (a : Article) (s : Script)
    (au : AudioAsset) (sub : SubtitleFile) : List Effect :=
  trAu env c a s au ++ subtitlesChunk sub ++ [Effect.call (Call.create_image a)]

/-- Trace up to (and including) the metadata-generator call. -/
def trBg (env : Collaborators) (c : Call) (a : Article) (s : Script)
    (au : AudioAsset) (sub : SubtitleFile) (bg : GeneratedImage) : List Effect :=
  trSub env c a s au sub ++ backgroundChunk bg ++ [Effect.call (Call.build_metadata a s)]

/-- Trace up to (and including) the video-composer call. -/
def trMd (env : Collaborators) (c : Call) (a : Article) (s : Script)
    (au : AudioAsset) (sub : SubtitleFile) (bg : GeneratedImage)
    (md : VideoMetadata) : List Effect :=
  trBg env c a s au sub bg ++ metadataChunk md ++ [Effect.call (Call.compose au sub bg)]

/-- Trace up to (and including) the publisher call. -/
def trV (env : Collaborators) (c : Call) (a : Article) (s : Script)
    (au : AudioAsset) (sub : SubtitleFile) (bg : GeneratedImage)
    (md : VideoMetadata) (v : VideoAsset) : List Effect :=
  trMd env c a s au sub bg md ++ videoChunk v ++ [Effect.call (Call.publish v md)]

/-- Outcome of a run whose `try` block raised `e` after trace `tr`. -/
def failOutcome (env : Collaborators) (tr : List Effect) (e : Exc) : RunOutcome :=
  { trace := tr ++ failChunk e
    status :=
      { status := "failed", started_at := env.t0
        completed_at := some env.t1, notes := [Exc.pyStr e] }
    result := Except.error e }

/-- Final state of the status record of a successful run. -/
def okStatus (env : Collaborators) (label : String) : PipelineStatus :=
  { status := label, started_at := env.t0, completed_at := some env.t1, notes := [] }

/-- Outcome of a successful run. -/
def okOutcome (env : Collaborators) (tr : List Effect) (label : String)
    (youtube_video_id : Option String) (v : VideoAsset) (md : VideoMetadata) : RunOutcome :=
  { trace := tr
    status := okStatus env label
    result := Except.ok
      { status := okStatus env label, video := some v
        metadata := some md, youtube_video_id := youtube_video_id } }

/-- Branch: the repository call itself raised. -/
theorem run_fail_repo (env : Collaborators) (cmd : GenerateDailyVideoInput) (e : Exc)
    (h : (repo_lookup env cmd.article_id).2 = Except.error e) :
    execute env cmd =
      failOutcome env (trR env (repo_lookup env cmd.article_id).1) e := by
  simp [execute, execute_body, resolve_article, trR, failOutcome, h]

/-- Branch: the repository returned no article, so the `"article"`-tagged
`PipelineError` is raised. -/
theorem run_fail_no_article (env : Collaborators) (cmd : GenerateDailyVideoInput)
    (h : (repo_lookup env cmd.article_id).2 = Except.ok none) :
    execute env cmd =
      failOutcome env (trR env (repo_lookup env cmd.article_id).1)
        (Exc.pipelineError "article" notFoundMessage) := by
  simp [execute, execute_body, resolve_article, trR, failOutcome, h]

/-- Branch: the script generator raised. -/
theorem run_fail_script (env : Collaborators) (cmd : GenerateDailyVideoInput)
    (a : Article) (e : Exc)
    (h0 : (repo_lookup env cmd.article_id).2 = Except.ok (some a))
    (h1 : env.build_script a = Except.error e) :
    execute env cmd =
      failOutcome env (trA env (repo_lookup env cmd.article_id).1 a) e := by
  simp [execute, execute_body, resolve_article, trR, trA, failOutcome, h0, h1]

/-- Branch: the audio synthesizer raised. -/
theorem run_fail_audio (env : Collaborators) (cmd : GenerateDailyVideoInput)
    (a : Article) (s : Script) (e : Exc)
    (h0 : (repo_lookup env cmd.article_id).2 = Except.ok (some a))
    (h1 : env.build_script a = Except.ok s)
    (h2 : env.synthesize s = Except.error e) :
    execute env cmd =
      failOutcome env (trS env (repo_lookup env cmd.article_id).1 a s) e := by
  simp [execute, execute_body, resolve_article, trR, trA, trS, failOutcome, h0, h1, h2]

/-- Branch: the subtitle generator raised. -/
theorem run_fail_subtitles (env : Collaborators) (cmd : GenerateDailyVideoInput)
    (a : Article) (s : Script) (au : AudioAsset) (e : Exc)
    (h0 : (repo_lookup env cmd.article_id).2 = Except.ok (some a))
    (h1 : env.build_script a = Except.ok s)
    (h2 : env.synthesize s = Except.ok au)
    (h3 : env.generate_subtitles s au = Except.error e) :
    execute env cmd =
      failOutcome env (trAu env (repo_lookup env cmd.article_id).1 a s au) e := by
  simp [execute, execute_body, resolve_article, trR, trA, trS, trAu, failOutcome,
    h0, h1, h2, h3]

/-- Branch: the background-image generator raised. -/
theorem run_fail_background (env : Collaborators) (cmd : GenerateDailyVideoInput)
    (a : Article) (s : Script) (au : AudioAsset) (sub : SubtitleFile) (e : Exc)
    (h0 : (repo_lookup env cmd.article_id).2 = Except.ok (some a))
    (h1 : env.build_script a = Except.ok s)
    (h2 : env.synthesize s = Except.ok au)
    (h3 : env.generate_subtitles s au = Except.ok sub)
    (h4 : env.create_image a = Except.error e) :
    execute env cmd =
      failOutcome env (trSub env (repo_lookup env cmd.article_id).1 a s au sub) e := by
  simp [execute, execute_body, resolve_article, trR, trA, trS, trAu, trSub, failOutcome,
    h0, h1, h2, h3, h4]

/-- Branch: the metadata generator raised. -/
theorem run_fail_metadata (env : Collaborators) (cmd : GenerateDailyVideoInput)
    (a : Article) (s : Script) (au : AudioAsset) (sub : SubtitleFile)
    (bg : GeneratedImage) (e : Exc)
    (h0 : (repo_lookup env cmd.article_id).2 = Except.ok (some a))
    (h1 : env.build_script a = Except.ok s)
    (h2 : env.synthesize s = Except.ok au)
    (h3 : env.generate_subtitles s au = Except.ok sub)
    (h4 : env.create_image a = Except.ok bg)
    (h5 : env.build_metadata a s = Except.error e) :
    execute env cmd =
      failOutcome env (trBg env (repo_lookup env cmd.article_id).1 a s au sub bg) e := by
  simp [execute, execute_body, resolve_article, trR, trA, trS, trAu, trSub, trBg,
    failOutcome, h0, h1, h2, h3, h4, h5]

/-- Branch: the video composer raised. -/
theorem run_fail_compose (env : Collaborators) (cmd : GenerateDailyVideoInput)
    (a : Article) (s : Script) (au : AudioAsset) (sub : SubtitleFile)
    (bg : GeneratedImage) (md : VideoMetadata) (e : Exc)
    (h0 : (repo_lookup env cmd.article_id).2 = Except.ok (some a))
    (h1 : env.build_script a = Except.ok s)
    (h2 : env.synthesize s = Except.ok au)
    (h3 : env.generate_subtitles s au = Except.ok sub)
    (h4 : env.create_image a = Except.ok bg)
    (h5 : env.build_metadata a s = Except.ok md)
    (h6 : env.compose au sub bg = Except.error e) :
    execute env cmd =
      failOutcome env (trMd env (repo_lookup env cmd.article_id).1 a s au sub bg md) e := by
  simp [execute, execute_body, resolve_article, trR, trA, trS, trAu, trSub, trBg, trMd,
    failOutcome, h0, h1, h2, h3, h4, h5, h6]

/-- Branch: the publisher raised. -/
theorem run_fail_publish (env : Collaborators) (cmd : GenerateDailyVideoInput)
    (a : Article) (s : Script) (au : AudioAsset) (sub : SubtitleFile)
    (bg : GeneratedImage) (md : VideoMetadata) (v : VideoAsset) (e : Exc)
    (h0 : (repo_lookup env cmd.article_id).2 = Except.ok (some a))
    (h1 : env.build_script a = Except.ok s)
    (h2 : env.synthesize s = Except.ok au)
    (h3 : env.generate_subtitles s au = Except.ok sub)
    (h4 : env.create_image a = Except.ok bg)
    (h5 : env.build_metadata a s = Except.ok md)
    (h6 : env.compose au sub bg = Except.ok v)
    (h7 : env.publish v md = Except.error e) :
    execute env cmd =
      failOutcome env (trV env (repo_lookup env cmd.article_id).1 a s au sub bg md v) e := by
  simp [execute, execute_body, resolve_article, trR, trA, trS, trAu, trSub, trBg, trMd, trV,
    failOutcome, h0, h1, h2, h3, h4, h5, h6, h7]

/-- Branch: every stage succeeded and the publisher returned a non-empty id. -/
theorem run_ok_uploaded (env : Collaborators) (cmd : GenerateDailyVideoInput)
    (a : Article) (s : Script) (au : AudioAsset) (sub : SubtitleFile)
    (bg : GeneratedImage) (md : VideoMetadata) (v : VideoAsset) (yid : String)
    (h0 : (repo_lookup env cmd.article_id).2 = Except.ok (some a))
    (h1 : env.build_script a = Except.ok s)
    (h2 : env.synthesize s = Except.ok au)
    (h3 : env.generate_subtitles s au = Except.ok sub)
    (h4 : env.create_image a = Except.ok bg)
    (h5 : env.build_metadata a s = Except.ok md)
    (h6 : env.compose au sub bg = Except.ok v)
    (h7 : env.publish v md = Except.ok (some yid))
    (h8 : yid ≠ "") :
    execute env cmd =
      okOutcome env
        (trV env (repo_lookup env cmd.article_id).1 a s au sub bg md v
          ++ uploadedChunk yid ++ doneChunk "uploaded")
        "uploaded" (some yid) v md := by
  simp [execute, execute_body, resolve_article, trR, trA, trS, trAu, trSub, trBg, trMd, trV,
    okOutcome, okStatus, h0, h1, h2, h3, h4, h5, h6, h7, h8]

/-- Branch: every stage succeeded and the publisher returned the empty
string, which the `if youtube_video_id:` test treats as falsy. -/
theorem run_ok_saved_empty (env : Collaborators) (cmd : GenerateDailyVideoInput)
    (a : Article) (s : Script) (au : AudioAsset) (sub : SubtitleFile)
    (bg : GeneratedImage) (md : VideoMetadata) (v : VideoAsset)
    (h0 : (repo_lookup env cmd.article_id).2 = Except.ok (some a))
    (h1 : env.build_script a = Except.ok s)
    (h2 : env.synthesize s = Except.ok au)
    (h3 : env.generate_subtitles s au = Except.ok sub)
    (h4 : env.create_image a = Except.ok bg)
    (h5 : env.build_metadata a s = Except.ok md)
    (h6 : env.compose au sub bg = Except.ok v)
    (h7 : env.publish v md = Except.ok (some "")) :
    execute env cmd =
      okOutcome env
        (trV env (repo_lookup env cmd.article_id).1 a s au sub bg md v
          ++ savedChunk ++ doneChunk "video_saved")
        "video_saved" (some "") v md := by
  simp [execute, execute_body, resolve_article, trR, trA, trS, trAu, trSub, trBg, trMd, trV,
    okOutcome, okStatus, h0, h1, h2, h3, h4, h5, h6, h7]

/-- Branch: every stage succeeded and the publisher returned `None`. -/
theorem run_ok_saved_none (env : Collaborators) (cmd : GenerateDailyVideoInput)
    (a : Article) (s : Script) (au : AudioAsset) (sub : SubtitleFile)
    (bg : GeneratedImage) (md : VideoMetadata) (v : VideoAsset)
    (h0 : (repo_lookup env cmd.article_id).2 = Except.ok (some a))
    (h1 : env.build_script a = Except.ok s)
    (h2 : env.synthesize s = Except.ok au)
    (h3 : env.generate_subtitles s au = Except.ok sub)
    (h4 : env.create_image a = Except.ok bg)
    (h5 : env.build_metadata a s = Except.ok md)
    (h6 : env.compose au sub bg = Except.ok v)
    (h7 : env.publish v md = Except.ok none) :
    execute env cmd =
      okOutcome env
        (trV env (repo_lookup env cmd.article_id).1 a s au sub bg md v
          ++ savedChunk ++ doneChunk "video_saved")
        "video_saved" none v md := by
  simp [execute, execute_body, resolve_article, trR, trA, trS, trAu, trSub, trBg, trMd, trV,
    okOutcome, okStatus, h0, h1, h2, h3, h4, h5, h6, h7]

/-- Every run falls into exactly one of the twelve branches: the condition
sets of the `run_…` lemmas above are exhaustive. -/
theorem run_cases (env : Collaborators) (cmd : GenerateDailyVideoInput) :
    (∃ e, (repo_lookup env cmd.article_id).2 = Except.error e)
    ∨ ((repo_lookup env cmd.article_id).2 = Except.ok none)
    ∨ (∃ a, (repo_lookup env cmd.article_id).2 = Except.ok (some a)
        ∧ ((∃ e, env.build_script a = Except.error e)
          ∨ (∃ s, env.build_script a = Except.ok s
            ∧ ((∃ e, env.synthesize s = Except.error e)
              ∨ (∃ au, env.synthesize s = Except.ok au
                ∧ ((∃ e, env.generate_subtitles s au = Except.error e)
                  ∨ (∃ sub, env.generate_subtitles s au = Except.ok sub
                    ∧ ((∃ e, env.create_image a = Except.error e)
                      ∨ (∃ bg, env.create_image a = Except.ok bg
                        ∧ ((∃ e, env.build_metadata a s = Except.error e)
                          ∨ (∃ md, env.build_metadata a s = Except.ok md
                            ∧ ((∃ e, env.compose au sub bg = Except.error e)
                              ∨ (∃ v, env.compose au sub bg = Except.ok v
                                ∧ ((∃ e, env.publish v md = Except.error e)
                                  ∨ (∃ yid, env.publish v md = Except.ok (some yid) ∧ yid ≠ "")
                                  ∨ (env.publish v md = Except.ok (some ""))
                                  ∨ (env.publish v md = Except.ok none))))))))))))))) := by
  rcases hr : (repo_lookup env cmd.article_id).2 with e | oa
  · exact Or.inl ⟨e, rfl⟩
  rcases oa with _ | a
  · exact Or.inr (Or.inl rfl)
  refine Or.inr (Or.inr ⟨a, rfl, ?_⟩)
  rcases h1 : env.build_script a with e | s
  · exact Or.inl ⟨e, rfl⟩
  refine Or.inr ⟨s, rfl, ?_⟩
  rcases h2 : env.synthesize s with e | au
  · exact Or.inl ⟨e, rfl⟩
  refine Or.inr ⟨au, rfl, ?_⟩
  rcases h3 : env.generate_subtitles s au with e | sub
  · exact Or.inl ⟨e, rfl⟩
  refine Or.inr ⟨sub, rfl, ?_⟩
  rcases h4 : env.create_image a with e | bg
  · exact Or.inl ⟨e, rfl⟩
  refine Or.inr ⟨bg, rfl, ?_⟩
  rcases h5 : env.build_metadata a s with e | md
  · exact Or.inl ⟨e, rfl⟩
  refine Or.inr ⟨md, rfl, ?_⟩
  rcases h6 : env.compose au sub bg with e | v
  · exact Or.inl ⟨e, rfl⟩
  refine Or.inr ⟨v, rfl, ?_⟩
  rcases h7 : env.publish v md with e | yid
  · exact Or.inl ⟨e, rfl⟩
  rcases yid with _ | y
  · exact Or.inr (Or.inr (Or.inr rfl))
  by_cases hy : y = ""
  · subst hy; exact Or.inr (Or.inr (Or.inl rfl))
  · exact Or.inr (Or.inl ⟨y, rfl, hy⟩)

/-! ### Orderings over stages

Each log event and each status label is ranked by its position in the fixed
stage sequence of the orchestrator, so that ordering claims become claims
about strictly increasing rank lists. -/

/-- Position of a log event in the fixed stage order. -/
def LogEvent.rank : LogEvent → Nat
  | LogEvent.pipeline_started _ => 0
  | LogEvent.article_selected _ => 1
  | LogEvent.script_generated _ => 2
  | LogEvent.audio_generated _ => 3
  | LogEvent.subtitles_generated _ => 4
  | LogEvent.background_generated _ => 5
  | LogEvent.metadata_generated _ => 6
  | LogEvent.video_composed _ => 7
  | LogEvent.video_uploaded _ => 8
  | LogEvent.pipeline_failed _ => 9

/-- Position of a status label in the state machine; the two terminal success
labels share a rank (they exclude each other) and `failed` ranks last, being
reachable from every state. -/
def statusRank : String → Nat
  | "started" => 0
  | "article_ready" => 1
  | "script_ready" => 2
  | "audio_ready" => 3
  | "subtitles_ready" => 4
  | "background_ready" => 5
  | "metadata_ready" => 6
  | "video_ready" => 7
  | "uploaded" => 8
  | "video_saved" => 8
  | "failed" => 9
  | _ => 10

/-- The rank of the log event the orchestrator emits right after assigning a
status label — `none` for `video_saved`, whose assignment logs nothing. -/
def statusLogRank : String → Option Nat
  | "started" => some 0
  | "article_ready" => some 1
  | "script_ready" => some 2
  | "audio_ready" => some 3
  | "subtitles_ready" => some 4
  | "background_ready" => some 5
  | "metadata_ready" => some 6
  | "video_ready" => some 7
  | "uploaded" => some 8
  | "video_saved" => none
  | "failed" => some 9
  | _ => none

/-- The status labels admitted by the state machine of the spec. -/
def definedLabels : List String :=
  ["started", "article_ready", "script_ready", "audio_ready", "subtitles_ready",
   "background_ready", "metadata_ready", "video_ready", "uploaded", "video_saved", "failed"]

/-- Position of a collaborator call in the fixed stage order; both repository
operations share position 0. -/
def callRank : Call → Nat
  | Call.by_id _ => 0
  | Call.latest => 0
  | Call.build_script _ => 1
  | Call.synthesize _ => 2
  | Call.generate_subtitles _ _ => 3
  | Call.create_image _ => 4
  | Call.build_metadata _ _ => 5
  | Call.compose _ _ _ => 6
  | Call.publish _ _ => 7

/-! ### Concrete test doubles

A fully successful environment, mirroring the fakes of
`tests/test_generate_daily_video.py`, and failing or degenerate variants of
it, used for the concrete witnesses and counterexamples below. -/

/-- The sample article of the test suite. -/
def articleX : Article :=
  { article_id := 123, title := "最新AIニュース", markdown_body := "## 見出し"
    category := some "ai", tags := ["ai"], url := some "https://example.com"
    published_at := none }

/-- A fixed generated script. -/
def scriptX : Script :=
  { article_id := 123
    lines := [{ speaker := "A", text := "こんにちは" }, { speaker := "B", text := "こんばんは" }]
    raw_text := "A: こんにちは", file_path := some "/tmp/script.txt" }

/-- A fixed synthesized audio asset. -/
def audioX : AudioAsset :=
  { article_id := 123, file_path := "/tmp/audio.mp3", duration_seconds := 10 }

/-- A fixed subtitle file. -/
def subtitlesX : SubtitleFile :=
  { article_id := 123, file_path := "/tmp/subtitles.srt"
    segments := [{ start_seconds := 0, end_seconds := 2, text := "こんにちは" }] }

/-- A fixed background image. -/
def imageX : GeneratedImage := { article_id := 123, file_path := "/tmp/image.png" }

/-- A fixed metadata record. -/
def metadataX : VideoMetadata :=
  { article_id := 123, title := "AI Daily ニュース", description := "説明", tags := ["AI"]
    category_id := "28", privacy_status := "public", language := "ja"
    file_path := some "/tmp/meta.json" }

/-- A fixed composed video. -/
def videoX : VideoAsset :=
  { article_id := 123, file_path := "/tmp/video.mp4", duration_seconds := 10 }

/-- Environment in which every collaborator succeeds and the publisher
returns `"youtube-video-id"`. -/
def happyEnv : Collaborators :=
  { by_id := fun i => if i = 123 then Except.ok (some articleX) else Except.ok none
    latest := Except.ok (some articleX)
    build_script := fun _ => Except.ok scriptX
    synthesize := fun _ => Except.ok audioX
    generate_subtitles := fun _ _ => Except.ok subtitlesX
    create_image := fun _ => Except.ok imageX
    build_metadata := fun _ _ => Except.ok metadataX
    compose := fun _ _ _ => Except.ok videoX
    publish := fun _ _ => Except.ok (some "youtube-video-id")
    t0 := 0, t1 := 1 }

/-- The command with no explicit article identifier. -/
def cmdNone : GenerateDailyVideoInput := { article_id := none }

/-- `happyEnv` with a publisher that declines to upload (returns `None`). -/
def savedEnv : Collaborators :=
  { happyEnv with publish := fun _ _ => Except.ok none }

/-- `happyEnv` with a publisher returning the empty string. -/
def emptyIdEnv : Collaborators :=
  { happyEnv with publish := fun _ _ => Except.ok (some "") }

/-- `happyEnv` with an audio synthesizer that raises `"boom"`. -/
def audioBoomEnv : Collaborators :=
  { happyEnv with synthesize := fun _ => Except.error (Exc.other "boom") }

/-- Environment in which the article source finds nothing at all. -/
def emptyRepoEnv : Collaborators :=
  { happyEnv with by_id := fun _ => Except.ok none, latest := Except.ok none }

/-! ### Computation rules for the trace projections -/

@[simp] lemma traceCalls_nil : traceCalls [] = [] := rfl

@[simp] lemma traceCalls_cons_call (c : Call) (tr : List Effect) :
    traceCalls (Effect.call c :: tr) = c :: traceCalls tr := rfl

@[simp] lemma traceCalls_cons_log (e : LogEvent) (tr : List Effect) :
    traceCalls (Effect.log e :: tr) = traceCalls tr := rfl

@[simp] lemma traceCalls_cons_notify (n : Notification) (tr : List Effect) :
    traceCalls (Effect.notify n :: tr) = traceCalls tr := rfl

@[simp] lemma traceCalls_cons_set (l : String) (tr : List Effect) :
    traceCalls (Effect.set_status l :: tr) = traceCalls tr := rfl

@[simp] lemma traceCalls_append (l1 l2 : List Effect) :
    traceCalls (l1 ++ l2) = traceCalls l1 ++ traceCalls l2 := List.filterMap_append l1 l2 _

@[simp] lemma traceLogs_nil : traceLogs [] = [] := rfl

@[simp] lemma traceLogs_cons_call (c : Call) (tr : List Effect) :
    traceLogs (Effect.call c :: tr) = traceLogs tr := rfl

@[simp] lemma traceLogs_cons_log (e : LogEvent) (tr : List Effect) :
    traceLogs (Effect.log e :: tr) = e :: traceLogs tr := rfl

@[simp] lemma traceLogs_cons_notify (n : Notification) (tr : List Effect) :
    traceLogs (Effect.notify n :: tr) = traceLogs tr := rfl

@[simp] lemma traceLogs_cons_set (l : String) (tr : List Effect) :
    traceLogs (Effect.set_status l :: tr) = traceLogs tr := rfl

@[simp] lemma traceLogs_append (l1 l2 : List Effect) :
    traceLogs (l1 ++ l2) = traceLogs l1 ++ traceLogs l2 := List.filterMap_append l1 l2 _

@[simp] lemma traceNotifications_nil : traceNotifications [] = [] := rfl

@[simp] lemma traceNotifications_cons_call (c : Call) (tr : List Effect) :
    traceNotifications (Effect.call c :: tr) = traceNotifications tr := rfl

@[simp] lemma traceNotifications_cons_log (e : LogEvent) (tr : List Effect) :
    traceNotifications (Effect.log e :: tr) = traceNotifications tr := rfl

@[simp] lemma traceNotifications_cons_notify (n : Notification) (tr : List Effect) :
    traceNotifications (Effect.notify n :: tr) = n :: traceNotifications tr := rfl

@[simp] lemma traceNotifications_cons_set (l : String) (tr : List Effect) :
    traceNotifications (Effect.set_status l :: tr) = traceNotifications tr := rfl

@[simp] lemma traceNotifications_append (l1 l2 : List Effect) :
    traceNotifications (l1 ++ l2) = traceNotifications l1 ++ traceNotifications l2 :=
  List.filterMap_append l1 l2 _

@[simp] lemma traceStatuses_nil : traceStatuses [] = [] := rfl

@[simp] lemma traceStatuses_cons_call (c : Call) (tr : List Effect) :
    traceStatuses (Effect.call c :: tr) = traceStatuses tr := rfl

@[simp] lemma traceStatuses_cons_log (e : LogEvent) (tr : List Effect) :
    traceStatuses (Effect.log e :: tr) = traceStatuses tr := rfl

@[simp] lemma traceStatuses_cons_notify (n : Notification) (tr : List Effect) :
    traceStatuses (Effect.notify n :: tr) = traceStatuses tr := rfl

@[simp] lemma traceStatuses_cons_set (l : String) (tr : List Effect) :
    traceStatuses (Effect.set_status l :: tr) = l :: traceStatuses tr := rfl

@[simp] lemma traceStatuses_append (l1 l2 : List Effect) :
    traceStatuses (l1 ++ l2) = traceStatuses l1 ++ traceStatuses l2 :=
  List.filterMap_append l1 l2 _

/-- In every run, the first collaborator call is the article-repository
operation chosen by `repo_lookup`. -/
lemma first_call (env : Collaborators) (cmd : GenerateDailyVideoInput) :
    (traceCalls (execute env cmd).trace).head? = some (repo_lookup env cmd.article_id).1 := by
  rcases run_cases env cmd with ⟨e, h0⟩ | h0 |
    ⟨a, h0, ⟨e, h1⟩ | ⟨s, h1, ⟨e, h2⟩ | ⟨au, h2, ⟨e, h3⟩ | ⟨sub, h3, ⟨e, h4⟩ |
    ⟨bg, h4, ⟨e, h5⟩ | ⟨md, h5, ⟨e, h6⟩ | ⟨v, h6, ⟨e, h7⟩ |
    ⟨yid, h7, h8⟩ | h7 | h7⟩⟩⟩⟩⟩⟩⟩
  · rw [run_fail_repo env cmd e h0]
    simp [failOutcome, trR, startTrace, failChunk]
  · rw [run_fail_no_article env cmd h0]
    simp [failOutcome, trR, startTrace, failChunk]
  · rw [run_fail_script env cmd a e h0 h1]
    simp [failOutcome, trA, trR, startTrace, articleChunk, failChunk]
  · rw [run_fail_audio env cmd a s e h0 h1 h2]
    simp [failOutcome, trS, trA, trR, startTrace, articleChunk, scriptChunk, failChunk]
  · rw [run_fail_subtitles env cmd a s au e h0 h1 h2 h3]
    simp [failOutcome, trAu, trS, trA, trR, startTrace, articleChunk, scriptChunk,
      audioChunk, failChunk]
  · rw [run_fail_background env cmd a s au sub e h0 h1 h2 h3 h4]
    simp [failOutcome, trSub, trAu, trS, trA, trR, startTrace, articleChunk, scriptChunk,
      audioChunk, subtitlesChunk, failChunk]
  · rw [run_fail_metadata env cmd a s au sub bg e h0 h1 h2 h3 h4 h5]
    simp [failOutcome, trBg, trSub, trAu, trS, trA, trR, startTrace, articleChunk,
      scriptChunk, audioChunk, subtitlesChunk, backgroundChunk, failChunk]
  · rw [run_fail_compose env cmd a s au sub bg md e h0 h1 h2 h3 h4 h5 h6]
    simp [failOutcome, trMd, trBg, trSub, trAu, trS, trA, trR, startTrace, articleChunk,
      scriptChunk, audioChunk, subtitlesChunk, backgroundChunk, metadataChunk, failChunk]
  · rw [run_fail_publish env cmd a s au sub bg md v e h0 h1 h2 h3 h4 h5 h6 h7]
    simp [failOutcome, trV, trMd, trBg, trSub, trAu, trS, trA, trR, startTrace,
      articleChunk, scriptChunk, audioChunk, subtitlesChunk, backgroundChunk,
      metadataChunk, videoChunk, failChunk]
  · rw [run_ok_uploaded env cmd a s au sub bg md v yid h0 h1 h2 h3 h4 h5 h6 h7 h8]
    simp [okOutcome, trV, trMd, trBg, trSub, trAu, trS, trA, trR, startTrace,
      articleChunk, scriptChunk, audioChunk, subtitlesChunk, backgroundChunk,
      metadataChunk, videoChunk, uploadedChunk, doneChunk]
  · rw [run_ok_saved_empty env cmd a s au sub bg md v h0 h1 h2 h3 h4 h5 h6 h7]
    simp [okOutcome, trV, trMd, trBg, trSub, trAu, trS, trA, trR, startTrace,
      articleChunk, scriptChunk, audioChunk, subtitlesChunk, backgroundChunk,
      metadataChunk, videoChunk, savedChunk, doneChunk]
  · rw [run_ok_saved_none env cmd a s au sub bg md v h0 h1 h2 h3 h4 h5 h6 h7]
    simp [okOutcome, trV, trMd, trBg, trSub, trAu, trS, trA, trR, startTrace,
      articleChunk, scriptChunk, audioChunk, subtitlesChunk, backgroundChunk,
      metadataChunk, videoChunk, savedChunk, doneChunk]

/-- The twelve-branch characterization of a run: which collaborator outcome
drove the run into its branch, and the exact `RunOutcome` of that branch. -/
theorem run_shape (env : Collaborators) (cmd : GenerateDailyVideoInput) :
    ∃ c, (repo_lookup env cmd.article_id).1 = c ∧
    ((∃ e, (repo_lookup env cmd.article_id).2 = Except.error e ∧
        execute env cmd = failOutcome env (trR env c) e)
    ∨ ((repo_lookup env cmd.article_id).2 = Except.ok none ∧
        execute env cmd = failOutcome env (trR env c) (Exc.pipelineError "article" notFoundMessage))
    ∨ (∃ a, (repo_lookup env cmd.article_id).2 = Except.ok (some a) ∧
      ((∃ e, env.build_script a = Except.error e ∧
          execute env cmd = failOutcome env (trA env c a) e)
      ∨ (∃ s, env.build_script a = Except.ok s ∧
        ((∃ e, env.synthesize s = Except.error e ∧
            execute env cmd = failOutcome env (trS env c a s) e)
        ∨ (∃ au, env.synthesize s = Except.ok au ∧
          ((∃ e, env.generate_subtitles s au = Except.error e ∧
              execute env cmd = failOutcome env (trAu env c a s au) e)
          ∨ (∃ sub, env.generate_subtitles s au = Except.ok sub ∧
            ((∃ e, env.create_image a = Except.error e ∧
                execute env cmd = failOutcome env (trSub env c a s au sub) e)
            ∨ (∃ bg, env.create_image a = Except.ok bg ∧
              ((∃ e, env.build_metadata a s = Except.error e ∧
                  execute env cmd = failOutcome env (trBg env c a s au sub bg) e)
              ∨ (∃ md, env.build_metadata a s = Except.ok md ∧
                ((∃ e, env.compose au sub bg = Except.error e ∧
                    execute env cmd = failOutcome env (trMd env c a s au sub bg md) e)
                ∨ (∃ v, env.compose au sub bg = Except.ok v ∧
                  ((∃ e, env.publish v md = Except.error e ∧
                      execute env cmd = failOutcome env (trV env c a s au sub bg md v) e)
                  ∨ (∃ yid, env.publish v md = Except.ok (some yid) ∧ yid ≠ "" ∧
                      execute env cmd = okOutcome env
                        (trV env c a s au sub bg md v ++ uploadedChunk yid ++ doneChunk "uploaded")
                        "uploaded" (some yid) v md)
                  ∨ (env.publish v md = Except.ok (some "") ∧
                      execute env cmd = okOutcome env
                        (trV env c a s au sub bg md v ++ savedChunk ++ doneChunk "video_saved")
                        "video_saved" (some "") v md)
                  ∨ (env.publish v md = Except.ok none ∧
                      execute env cmd = okOutcome env
                        (trV env c a s au sub bg md v ++ savedChunk ++ doneChunk "video_saved")
                        "video_saved" none v md)))))))))))))))) := by
  refine ⟨(repo_lookup env cmd.article_id).1, rfl, ?_⟩
  rcases run_cases env cmd with ⟨e, h0⟩ | h0 |
    ⟨a, h0, ⟨e, h1⟩ | ⟨s, h1, ⟨e, h2⟩ | ⟨au, h2, ⟨e, h3⟩ | ⟨sub, h3, ⟨e, h4⟩ |
    ⟨bg, h4, ⟨e, h5⟩ | ⟨md, h5, ⟨e, h6⟩ | ⟨v, h6, ⟨e, h7⟩ |
    ⟨yid, h7, h8⟩ | h7 | h7⟩⟩⟩⟩⟩⟩⟩
  · exact Or.inl ⟨e, h0, run_fail_repo env cmd e h0⟩
  · exact Or.inr (Or.inl ⟨h0, run_fail_no_article env cmd h0⟩)
  · exact Or.inr (Or.inr ⟨a, h0, Or.inl ⟨e, h1, run_fail_script env cmd a e h0 h1⟩⟩)
  · exact Or.inr (Or.inr ⟨a, h0, Or.inr ⟨s, h1, Or.inl
      ⟨e, h2, run_fail_audio env cmd a s e h0 h1 h2⟩⟩⟩)
  · exact Or.inr (Or.inr ⟨a, h0, Or.inr ⟨s, h1, Or.inr ⟨au, h2, Or.inl
      ⟨e, h3, run_fail_subtitles env cmd a s au e h0 h1 h2 h3⟩⟩⟩⟩)
  · exact Or.inr (Or.inr ⟨a, h0, Or.inr ⟨s, h1, Or.inr ⟨au, h2, Or.inr ⟨sub, h3, Or.inl
      ⟨e, h4, run_fail_background env cmd a s au sub e h0 h1 h2 h3 h4⟩⟩⟩⟩⟩)
  · exact Or.inr (Or.inr ⟨a, h0, Or.inr ⟨s, h1, Or.inr ⟨au, h2, Or.inr ⟨sub, h3, Or.inr
      ⟨bg, h4, Or.inl ⟨e, h5, run_fail_metadata env cmd a s au sub bg e h0 h1 h2 h3 h4 h5⟩⟩⟩⟩⟩⟩)
  · exact Or.inr (Or.inr ⟨a, h0, Or.inr ⟨s, h1, Or.inr ⟨au, h2, Or.inr ⟨sub, h3, Or.inr
      ⟨bg, h4, Or.inr ⟨md, h5, Or.inl
      ⟨e, h6, run_fail_compose env cmd a s au sub bg md e h0 h1 h2 h3 h4 h5 h6⟩⟩⟩⟩⟩⟩⟩)
  · exact Or.inr (Or.inr ⟨a, h0, Or.inr ⟨s, h1, Or.inr ⟨au, h2, Or.inr ⟨sub, h3, Or.inr
      ⟨bg, h4, Or.inr ⟨md, h5, Or.inr ⟨v, h6, Or.inl
      ⟨e, h7, run_fail_publish env cmd a s au sub bg md v e h0 h1 h2 h3 h4 h5 h6 h7⟩⟩⟩⟩⟩⟩⟩⟩)
  · exact Or.inr (Or.inr ⟨a, h0, Or.inr ⟨s, h1, Or.inr ⟨au, h2, Or.inr ⟨sub, h3, Or.inr
      ⟨bg, h4, Or.inr ⟨md, h5, Or.inr ⟨v, h6, Or.inr (Or.inl
      ⟨yid, h7, h8, run_ok_uploaded env cmd a s au sub bg md v yid h0 h1 h2 h3 h4 h5 h6 h7 h8⟩)⟩⟩⟩⟩⟩⟩⟩)
  · exact Or.inr (Or.inr ⟨a, h0, Or.inr ⟨s, h1, Or.inr ⟨au, h2, Or.inr ⟨sub, h3, Or.inr
      ⟨bg, h4, Or.inr ⟨md, h5, Or.inr ⟨v, h6, Or.inr (Or.inr (Or.inl
      ⟨h7, run_ok_saved_empty env cmd a s au sub bg md v h0 h1 h2 h3 h4 h5 h6 h7⟩))⟩⟩⟩⟩⟩⟩⟩)
  · exact Or.inr (Or.inr ⟨a, h0, Or.inr ⟨s, h1, Or.inr ⟨au, h2, Or.inr ⟨sub, h3, Or.inr
      ⟨bg, h4, Or.inr ⟨md, h5, Or.inr ⟨v, h6, Or.inr (Or.inr (Or.inr
      ⟨h7, run_ok_saved_none env cmd a s au sub bg md v h0 h1 h2 h3 h4 h5 h6 h7⟩))⟩⟩⟩⟩⟩⟩⟩)

/-! ### Claims -/

/-- The result returned by `execute happyEnv cmdNone`. -/
def resultX : GenerateDailyVideoResult :=
  { status := { status := "uploaded", started_at := 0, completed_at := some 1, notes := [] }
    video := some videoX, metadata := some metadataX
    youtube_video_id := some "youtube-video-id" }

/-- C1 counterexample: with collaborators that all succeed and a publisher
that returns the empty string — a non-null identifier — the run ends with
status label `video_saved`, and the result's publish identifier is `some ""`,
which is not null.  This refutes both directions of the claim as stated. -/
theorem C1_counterexample :
    (execute emptyIdEnv cmdNone).status.status = "video_saved"
    ∧ ((execute emptyIdEnv cmdNone).result.toOption.map fun r => r.youtube_video_id)
        = some (some "")
    ∧ (some "" : Option String) ≠ none := by
  refine ⟨rfl, rfl, by simp⟩

/-- C1 (amended): in every run that returns normally, the status label is
`uploaded` when the publisher returned a non-empty identifier, and
`video_saved` when it returned null or the empty string; in the `video_saved`
case the result's publish identifier is null or empty (exactly what the
publisher returned) — never any intermediate label. -/
theorem C1_terminal_label (env : Collaborators) (cmd : GenerateDailyVideoInput)
    (r : GenerateDailyVideoResult) (h : (execute env cmd).result = Except.ok r) :
    (r.status.status = "uploaded" ∧ ∃ yid, r.youtube_video_id = some yid ∧ yid ≠ "")
    ∨ (r.status.status = "video_saved"
        ∧ (r.youtube_video_id = none ∨ r.youtube_video_id = some "")) := by
  rcases run_shape env cmd with ⟨c, hc, ⟨e, h0, heq⟩ | ⟨h0, heq⟩ |
    ⟨a, h0, ⟨e, h1, heq⟩ | ⟨s, h1, ⟨e, h2, heq⟩ | ⟨au, h2, ⟨e, h3, heq⟩ |
    ⟨sub, h3, ⟨e, h4, heq⟩ | ⟨bg, h4, ⟨e, h5, heq⟩ | ⟨md, h5, ⟨e, h6, heq⟩ |
    ⟨v, h6, ⟨e, h7, heq⟩ | ⟨yid, h7, h8, heq⟩ | ⟨h7, heq⟩ | ⟨h7, heq⟩⟩⟩⟩⟩⟩⟩⟩⟩
  all_goals rw [heq] at h
  any_goals simp [failOutcome] at h
  · simp only [okOutcome, Except.ok.injEq] at h
    subst h
    exact Or.inl ⟨rfl, yid, rfl, h8⟩
  · simp only [okOutcome, Except.ok.injEq] at h
    subst h
    exact Or.inr ⟨rfl, Or.inr rfl⟩
  · simp only [okOutcome, Except.ok.injEq] at h
    subst h
    exact Or.inr ⟨rfl, Or.inl rfl⟩

/-- Witness for C1 (amended) at the fully successful environment. -/
theorem C1_terminal_label_witness :
    (resultX.status.status = "uploaded"
      ∧ ∃ yid, resultX.youtube_video_id = some yid ∧ yid ≠ "")
    ∨ (resultX.status.status = "video_saved"
        ∧ (resultX.youtube_video_id = none ∨ resultX.youtube_video_id = some "")) :=
  C1_terminal_label happyEnv cmdNone resultX rfl

/-- C3: when the article repository answers (without raising) that there is
no article, `execute` raises the `"article"`-tagged `PipelineError`, performs
no collaborator call beyond the single article-source lookup, and emits
exactly one `pipeline_failed` log event and one error-level notification. -/
theorem C3_resolution_failure (env : Collaborators) (cmd : GenerateDailyVideoInput)
    (h : (repo_lookup env cmd.article_id).2 = Except.ok none) :
    (execute env cmd).result = Except.error (Exc.pipelineError "article" notFoundMessage)
    ∧ traceCalls (execute env cmd).trace = [(repo_lookup env cmd.article_id).1]
    ∧ traceLogs (execute env cmd).trace
        = [LogEvent.pipeline_started env.t0,
           LogEvent.pipeline_failed (Exc.pyStr (Exc.pipelineError "article" notFoundMessage))]
    ∧ traceNotifications (execute env cmd).trace
        = [errNotification (Exc.pyStr (Exc.pipelineError "article" notFoundMessage))] := by
  rw [run_fail_no_article env cmd h]
  refine ⟨rfl, ?_, ?_, ?_⟩ <;> simp [failOutcome, trR, startTrace, failChunk]

/-- Witness for C3 at an environment whose repository finds nothing. -/
theorem C3_resolution_failure_witness :
    (execute emptyRepoEnv cmdNone).result
        = Except.error (Exc.pipelineError "article" notFoundMessage)
    ∧ traceCalls (execute emptyRepoEnv cmdNone).trace
        = [(repo_lookup emptyRepoEnv cmdNone.article_id).1]
    ∧ traceLogs (execute emptyRepoEnv cmdNone).trace
        = [LogEvent.pipeline_started emptyRepoEnv.t0,
           LogEvent.pipeline_failed (Exc.pyStr (Exc.pipelineError "article" notFoundMessage))]
    ∧ traceNotifications (execute emptyRepoEnv cmdNone).trace
        = [errNotification (Exc.pyStr (Exc.pipelineError "article" notFoundMessage))] :=
  C3_resolution_failure emptyRepoEnv cmdNone rfl

/-- C5 counterexample: with explicit identifier `0` the orchestrator requests
`latest` from the article source and never performs the by-id lookup, because
`if article_id` is false at `0` — refuting the claim's "including identifier
0". -/
theorem C5_counterexample :
    (traceCalls (execute happyEnv { article_id := some 0 }).trace).head? = some Call.latest
    ∧ Call.by_id 0 ∉ traceCalls (execute happyEnv { article_id := some 0 }).trace := by
  decide

/-- C5 (amended): a non-zero explicit identifier is looked up directly via
the article source's by-id operation; when no identifier is supplied — or the
supplied identifier is `0`, which Python truthiness conflates with absence —
the orchestrator requests `latest` instead. -/
theorem C5_resolution_policy (env : Collaborators) (i : Int) (h : i ≠ 0) :
    (traceCalls (execute env { article_id := some i }).trace).head? = some (Call.by_id i)
    ∧ (traceCalls (execute env { article_id := none }).trace).head? = some Call.latest
    ∧ (traceCalls (execute env { article_id := some 0 }).trace).head? = some Call.latest := by
  refine ⟨?_, ?_, ?_⟩ <;> rw [first_call]
  · simp [repo_lookup, h]
  · simp [repo_lookup]
  · simp [repo_lookup]

/-- Witness for C5 (amended) at identifier `123`. -/
theorem C5_resolution_policy_witness :
    (traceCalls (execute happyEnv { article_id := some 123 }).trace).head?
        = some (Call.by_id 123)
    ∧ (traceCalls (execute happyEnv { article_id := none }).trace).head? = some Call.latest
    ∧ (traceCalls (execute happyEnv { article_id := some 0 }).trace).head? = some Call.latest :=
  C5_resolution_policy happyEnv 123 (by decide)

/-- C9: in every run the trace opens with the creation of the `started`
status record followed immediately by the `pipeline_started` log event
carrying the run's start timestamp; that event is the first logged event, and
no collaborator call precedes it. -/
theorem C9_pipeline_started_first (env : Collaborators) (cmd : GenerateDailyVideoInput) :
    (execute env cmd).trace.take 2
      = [Effect.set_status "started", Effect.log (LogEvent.pipeline_started env.t0)]
    ∧ (traceLogs (execute env cmd).trace).head? = some (LogEvent.pipeline_started env.t0)
    ∧ traceCalls ((execute env cmd).trace.take 2) = [] := by
  rcases run_shape env cmd with ⟨c, hc, ⟨e, h0, heq⟩ | ⟨h0, heq⟩ |
    ⟨a, h0, ⟨e, h1, heq⟩ | ⟨s, h1, ⟨e, h2, heq⟩ | ⟨au, h2, ⟨e, h3, heq⟩ |
    ⟨sub, h3, ⟨e, h4, heq⟩ | ⟨bg, h4, ⟨e, h5, heq⟩ | ⟨md, h5, ⟨e, h6, heq⟩ |
    ⟨v, h6, ⟨e, h7, heq⟩ | ⟨yid, h7, h8, heq⟩ | ⟨h7, heq⟩ | ⟨h7, heq⟩⟩⟩⟩⟩⟩⟩⟩⟩
  all_goals rw [heq]
  all_goals simp [failOutcome, okOutcome, okStatus, trR, trA, trS, trAu, trSub, trBg,
    trMd, trV, startTrace, articleChunk, scriptChunk, audioChunk, subtitlesChunk,
    backgroundChunk, metadataChunk, videoChunk, uploadedChunk, savedChunk, doneChunk,
    failChunk]

/-- C10: every run that returns normally hands back a status record with a
non-null completion timestamp and untouched empty notes, and the record
embedded in the result is the run's single status record. -/
theorem C10_success_record (env : Collaborators) (cmd : GenerateDailyVideoInput)
    (r : GenerateDailyVideoResult) (h : (execute env cmd).result = Except.ok r) :
    r.status.completed_at = some env.t1
    ∧ r.status.notes = []
    ∧ r.status = (execute env cmd).status := by
  rcases run_shape env cmd with ⟨c, hc, ⟨e, h0, heq⟩ | ⟨h0, heq⟩ |
    ⟨a, h0, ⟨e, h1, heq⟩ | ⟨s, h1, ⟨e, h2, heq⟩ | ⟨au, h2, ⟨e, h3, heq⟩ |
    ⟨sub, h3, ⟨e, h4, heq⟩ | ⟨bg, h4, ⟨e, h5, heq⟩ | ⟨md, h5, ⟨e, h6, heq⟩ |
    ⟨v, h6, ⟨e, h7, heq⟩ | ⟨yid, h7, h8, heq⟩ | ⟨h7, heq⟩ | ⟨h7, heq⟩⟩⟩⟩⟩⟩⟩⟩⟩
  all_goals rw [heq] at h ⊢
  any_goals simp [failOutcome] at h
  all_goals simp only [okOutcome, Except.ok.injEq] at h
  all_goals subst h
  all_goals exact ⟨rfl, rfl, rfl⟩

/-- Witness for C10 at the fully successful environment. -/
theorem C10_success_record_witness :
    resultX.status.completed_at = some happyEnv.t1
    ∧ resultX.status.notes = []
    ∧ resultX.status = (execute happyEnv cmdNone).status :=
  C10_success_record happyEnv cmdNone resultX rfl

/-- C2: whenever a run propagates an exception after article resolution
succeeded, the final status label is `failed`, the completion timestamp is
set, the exception's message is appended to the (previously empty) notes, a
`pipeline_failed` event carrying the message is logged, exactly one
notification is sent and it is error-level carrying the message, and the
original exception propagates unchanged. -/
theorem C2_failure_handling (env : Collaborators) (cmd : GenerateDailyVideoInput) (e : Exc)
    (h : (execute env cmd).result = Except.error e)
    (hres : Effect.set_status "article_ready" ∈ (execute env cmd).trace) :
    (execute env cmd).status.status = "failed"
    ∧ (execute env cmd).status.completed_at = some env.t1
    ∧ (execute env cmd).status.notes = [Exc.pyStr e]
    ∧ LogEvent.pipeline_failed (Exc.pyStr e) ∈ traceLogs (execute env cmd).trace
    ∧ traceNotifications (execute env cmd).trace = [errNotification (Exc.pyStr e)]
    ∧ (execute env cmd).result = Except.error e := by
  rcases run_shape env cmd with ⟨c, hc, ⟨e', h0, heq⟩ | ⟨h0, heq⟩ |
    ⟨a, h0, ⟨e', h1, heq⟩ | ⟨s, h1, ⟨e', h2, heq⟩ | ⟨au, h2, ⟨e', h3, heq⟩ |
    ⟨sub, h3, ⟨e', h4, heq⟩ | ⟨bg, h4, ⟨e', h5, heq⟩ | ⟨md, h5, ⟨e', h6, heq⟩ |
    ⟨v, h6, ⟨e', h7, heq⟩ | ⟨yid, h7, h8, heq⟩ | ⟨h7, heq⟩ | ⟨h7, heq⟩⟩⟩⟩⟩⟩⟩⟩⟩
  all_goals rw [heq] at h ⊢
  any_goals simp [okOutcome] at h
  all_goals simp only [failOutcome, Except.error.injEq] at h
  all_goals subst h
  all_goals refine ⟨rfl, rfl, rfl, ?_, ?_, rfl⟩
  all_goals simp [failOutcome, trR, trA, trS, trAu, trSub, trBg, trMd, trV, startTrace,
    articleChunk, scriptChunk, audioChunk, subtitlesChunk, backgroundChunk, metadataChunk,
    videoChunk, failChunk]

/-- Witness for C2 at an environment whose audio synthesizer raises. -/
theorem C2_failure_handling_witness :
    (execute audioBoomEnv cmdNone).status.status = "failed"
    ∧ (execute audioBoomEnv cmdNone).status.completed_at = some audioBoomEnv.t1
    ∧ (execute audioBoomEnv cmdNone).status.notes = [Exc.pyStr (Exc.other "boom")]
    ∧ LogEvent.pipeline_failed (Exc.pyStr (Exc.other "boom"))
        ∈ traceLogs (execute audioBoomEnv cmdNone).trace
    ∧ traceNotifications (execute audioBoomEnv cmdNone).trace
        = [errNotification (Exc.pyStr (Exc.other "boom"))]
    ∧ (execute audioBoomEnv cmdNone).result = Except.error (Exc.other "boom") :=
  C2_failure_handling audioBoomEnv cmdNone (Exc.other "boom") rfl (by decide)

/-- C4 counterexample: a fully successful run whose publisher returns null
reaches the terminal `video_saved` state but logs no event for that final
stage — the log ranks stop at `video_composed` (rank 7). -/
theorem C4_counterexample :
    (execute savedEnv cmdNone).status.status = "video_saved"
    ∧ (traceLogs (execute savedEnv cmdNone).trace).map LogEvent.rank
        = [0, 1, 2, 3, 4, 5, 6, 7] := by
  decide

/-- C4 (amended): in every run, the logged event sequence is exactly the
ordered list of stage-completion events for the status transitions that
happened — one event per transition, in increasing stage order, except the
`video_saved` transition, which logs nothing. -/
theorem C4_log_correspondence (env : Collaborators) (cmd : GenerateDailyVideoInput) :
    (traceLogs (execute env cmd).trace).map LogEvent.rank
      = (traceStatuses (execute env cmd).trace).filterMap statusLogRank
    ∧ List.Chain' (· < ·) ((traceLogs (execute env cmd).trace).map LogEvent.rank) := by
  rcases run_shape env cmd with ⟨c, hc, ⟨e, h0, heq⟩ | ⟨h0, heq⟩ |
    ⟨a, h0, ⟨e, h1, heq⟩ | ⟨s, h1, ⟨e, h2, heq⟩ | ⟨au, h2, ⟨e, h3, heq⟩ |
    ⟨sub, h3, ⟨e, h4, heq⟩ | ⟨bg, h4, ⟨e, h5, heq⟩ | ⟨md, h5, ⟨e, h6, heq⟩ |
    ⟨v, h6, ⟨e, h7, heq⟩ | ⟨yid, h7, h8, heq⟩ | ⟨h7, heq⟩ | ⟨h7, heq⟩⟩⟩⟩⟩⟩⟩⟩⟩
  all_goals rw [heq]
  all_goals simp [failOutcome, okOutcome, okStatus, trR, trA, trS, trAu, trSub, trBg,
    trMd, trV, startTrace, articleChunk, scriptChunk, audioChunk, subtitlesChunk,
    backgroundChunk, metadataChunk, videoChunk, uploadedChunk, savedChunk, doneChunk,
    failChunk, LogEvent.rank, statusLogRank]

/-- C6: in every run the status record's label starts at `started`, moves
strictly forward through the defined sequence (with `failed` reachable from
every state), never regresses, stays within the defined label set, and the
run's single status record ends at the last transition's label. -/
theorem C6_status_monotone (env : Collaborators) (cmd : GenerateDailyVideoInput) :
    (traceStatuses (execute env cmd).trace).head? = some "started"
    ∧ List.Chain' (· < ·) ((traceStatuses (execute env cmd).trace).map statusRank)
    ∧ (traceStatuses (execute env cmd).trace).getLast?
        = some (execute env cmd).status.status
    ∧ ((traceStatuses (execute env cmd).trace).all
        fun l => definedLabels.contains l) = true := by
  rcases run_shape env cmd with ⟨c, hc, ⟨e, h0, heq⟩ | ⟨h0, heq⟩ |
    ⟨a, h0, ⟨e, h1, heq⟩ | ⟨s, h1, ⟨e, h2, heq⟩ | ⟨au, h2, ⟨e, h3, heq⟩ |
    ⟨sub, h3, ⟨e, h4, heq⟩ | ⟨bg, h4, ⟨e, h5, heq⟩ | ⟨md, h5, ⟨e, h6, heq⟩ |
    ⟨v, h6, ⟨e, h7, heq⟩ | ⟨yid, h7, h8, heq⟩ | ⟨h7, heq⟩ | ⟨h7, heq⟩⟩⟩⟩⟩⟩⟩⟩⟩
  all_goals rw [heq]
  all_goals simp [failOutcome, okOutcome, okStatus, trR, trA, trS, trAu, trSub, trBg,
    trMd, trV, startTrace, articleChunk, scriptChunk, audioChunk, subtitlesChunk,
    backgroundChunk, metadataChunk, videoChunk, uploadedChunk, savedChunk, doneChunk,
    failChunk, statusRank, definedLabels]

/-- C7: every run sends exactly one notification: the info-level success
notification carrying the final status label when the run returns normally,
or the error-level notification carrying the failure message when it
raises. -/
theorem C7_single_notification (env : Collaborators) (cmd : GenerateDailyVideoInput) :
    traceNotifications (execute env cmd).trace
      = (match (execute env cmd).result with
         | Except.ok r => [successNotification r.status.status]
         | Except.error e => [errNotification (Exc.pyStr e)]) := by
  rcases run_shape env cmd with ⟨c, hc, ⟨e, h0, heq⟩ | ⟨h0, heq⟩ |
    ⟨a, h0, ⟨e, h1, heq⟩ | ⟨s, h1, ⟨e, h2, heq⟩ | ⟨au, h2, ⟨e, h3, heq⟩ |
    ⟨sub, h3, ⟨e, h4, heq⟩ | ⟨bg, h4, ⟨e, h5, heq⟩ | ⟨md, h5, ⟨e, h6, heq⟩ |
    ⟨v, h6, ⟨e, h7, heq⟩ | ⟨yid, h7, h8, heq⟩ | ⟨h7, heq⟩ | ⟨h7, heq⟩⟩⟩⟩⟩⟩⟩⟩⟩
  all_goals rw [heq]
  all_goals simp [failOutcome, okOutcome, okStatus, trR, trA, trS, trAu, trSub, trBg,
    trMd, trV, startTrace, articleChunk, scriptChunk, audioChunk, subtitlesChunk,
    backgroundChunk, metadataChunk, videoChunk, uploadedChunk, savedChunk, doneChunk,
    failChunk]

/-- C8: in every run the collaborator calls are exactly a prefix of the fixed
stage sequence — so each stage collaborator is invoked at most once, in
order, with no retry — and each stage's argument values are precisely the
`ok`-outputs the environment produced for the earlier stages (`k` is the
number of calls performed). -/
theorem C8_stage_sequencing (env : Collaborators) (cmd : GenerateDailyVideoInput) :
    ∃ (k : Nat) (a : Article) (s : Script) (au : AudioAsset) (sub : SubtitleFile)
      (bg : GeneratedImage) (md : VideoMetadata) (v : VideoAsset),
      k ≤ 8
      ∧ traceCalls (execute env cmd).trace
          = List.take k [(repo_lookup env cmd.article_id).1, Call.build_script a,
              Call.synthesize s, Call.generate_subtitles s au, Call.create_image a,
              Call.build_metadata a s, Call.compose au sub bg, Call.publish v md]
      ∧ (2 ≤ k → (repo_lookup env cmd.article_id).2 = Except.ok (some a))
      ∧ (3 ≤ k → env.build_script a = Except.ok s)
      ∧ (4 ≤ k → env.synthesize s = Except.ok au)
      ∧ (5 ≤ k → env.generate_subtitles s au = Except.ok sub)
      ∧ (6 ≤ k → env.create_image a = Except.ok bg)
      ∧ (7 ≤ k → env.build_metadata a s = Except.ok md)
      ∧ (8 ≤ k → env.compose au sub bg = Except.ok v) := by
  rcases run_shape env cmd with ⟨c, hc, ⟨e, h0, heq⟩ | ⟨h0, heq⟩ |
    ⟨a, h0, ⟨e, h1, heq⟩ | ⟨s, h1, ⟨e, h2, heq⟩ | ⟨au, h2, ⟨e, h3, heq⟩ |
    ⟨sub, h3, ⟨e, h4, heq⟩ | ⟨bg, h4, ⟨e, h5, heq⟩ | ⟨md, h5, ⟨e, h6, heq⟩ |
    ⟨v, h6, ⟨e, h7, heq⟩ | ⟨yid, h7, h8, heq⟩ | ⟨h7, heq⟩ | ⟨h7, heq⟩⟩⟩⟩⟩⟩⟩⟩⟩
  all_goals rw [heq, hc]
  · refine ⟨1, default, default, default, default, default, default, default,
      by decide, ?_, by simp, by simp, by simp, by simp, by simp, by simp, by simp⟩
    simp [failOutcome, trR, startTrace, failChunk]
  · refine ⟨1, default, default, default, default, default, default, default,
      by decide, ?_, by simp, by simp, by simp, by simp, by simp, by simp, by simp⟩
    simp [failOutcome, trR, startTrace, failChunk]
  · refine ⟨2, a, default, default, default, default, default, default,
      by decide, ?_, fun _ => h0, by simp, by simp, by simp, by simp, by simp, by simp⟩
    simp [failOutcome, trA, trR, startTrace, articleChunk, failChunk]
  · refine ⟨3, a, s, default, default, default, default, default,
      by decide, ?_, fun _ => h0, fun _ => h1, by simp, by simp, by simp, by simp, by simp⟩
    simp [failOutcome, trS, trA, trR, startTrace, articleChunk, scriptChunk, failChunk]
  · refine ⟨4, a, s, au, default, default, default, default,
      by decide, ?_, fun _ => h0, fun _ => h1, fun _ => h2, by simp, by simp, by simp,
      by simp⟩
    simp [failOutcome, trAu, trS, trA, trR, startTrace, articleChunk, scriptChunk,
      audioChunk, failChunk]
  · refine ⟨5, a, s, au, sub, default, default, default,
      by decide, ?_, fun _ => h0, fun _ => h1, fun _ => h2, fun _ => h3, by simp,
      by simp, by simp⟩
    simp [failOutcome, trSub, trAu, trS, trA, trR, startTrace, articleChunk, scriptChunk,
      audioChunk, subtitlesChunk, failChunk]
  · refine ⟨6, a, s, au, sub, bg, default, default,
      by decide, ?_, fun _ => h0, fun _ => h1, fun _ => h2, fun _ => h3, fun _ => h4,
      by simp, by simp⟩
    simp [failOutcome, trBg, trSub, trAu, trS, trA, trR, startTrace, articleChunk,
      scriptChunk, audioChunk, subtitlesChunk, backgroundChunk, failChunk]
  · refine ⟨7, a, s, au, sub, bg, md, default,
      by decide, ?_, fun _ => h0, fun _ => h1, fun _ => h2, fun _ => h3, fun _ => h4,
      fun _ => h5, by simp⟩
    simp [failOutcome, trMd, trBg, trSub, trAu, trS, trA, trR, startTrace, articleChunk,
      scriptChunk, audioChunk, subtitlesChunk, backgroundChunk, metadataChunk, failChunk]
  · refine ⟨8, a, s, au, sub, bg, md, v,
      by decide, ?_, fun _ => h0, fun _ => h1, fun _ => h2, fun _ => h3, fun _ => h4,
      fun _ => h5, fun _ => h6⟩
    simp [failOutcome, trV, trMd, trBg, trSub, trAu, trS, trA, trR, startTrace,
      articleChunk, scriptChunk, audioChunk, subtitlesChunk, backgroundChunk,
      metadataChunk, videoChunk, failChunk]
  · refine ⟨8, a, s, au, sub, bg, md, v,
      by decide, ?_, fun _ => h0, fun _ => h1, fun _ => h2, fun _ => h3, fun _ => h4,
      fun _ => h5, fun _ => h6⟩
    simp [okOutcome, trV, trMd, trBg, trSub, trAu, trS, trA, trR, startTrace,
      articleChunk, scriptChunk, audioChunk, subtitlesChunk, backgroundChunk,
      metadataChunk, videoChunk, uploadedChunk, doneChunk]
  · refine ⟨8, a, s, au, sub, bg, md, v,
      by decide, ?_, fun _ => h0, fun _ => h1, fun _ => h2, fun _ => h3, fun _ => h4,
      fun _ => h5, fun _ => h6⟩
    simp [okOutcome, trV, trMd, trBg, trSub, trAu, trS, trA, trR, startTrace,
      articleChunk, scriptChunk, audioChunk, subtitlesChunk, backgroundChunk,
      metadataChunk, videoChunk, savedChunk, doneChunk]
  · refine ⟨8, a, s, au, sub, bg, md, v,
      by decide, ?_, fun _ => h0, fun _ => h1, fun _ => h2, fun _ => h3, fun _ => h4,
      fun _ => h5, fun _ => h6⟩
    simp [okOutcome, trV, trMd, trBg, trSub, trAu, trS, trA, trR, startTrace,
      articleChunk, scriptChunk, audioChunk, subtitlesChunk, backgroundChunk,
      metadataChunk, videoChunk, savedChunk, doneChunk]

/-- Witness for C8 at the fully successful environment. -/
theorem C8_stage_sequencing_witness :
    ∃ (k : Nat) (a : Article) (s : Script) (au : AudioAsset) (sub : SubtitleFile)
      (bg : GeneratedImage) (md : VideoMetadata) (v : VideoAsset),
      k ≤ 8
      ∧ traceCalls (execute happyEnv cmdNone).trace
          = List.take k [(repo_lookup happyEnv cmdNone.article_id).1, Call.build_script a,
              Call.synthesize s, Call.generate_subtitles s au, Call.create_image a,
              Call.build_metadata a s, Call.compose au sub bg, Call.publish v md]
      ∧ (2 ≤ k → (repo_lookup happyEnv cmdNone.article_id).2 = Except.ok (some a))
      ∧ (3 ≤ k → happyEnv.build_script a = Except.ok s)
      ∧ (4 ≤ k → happyEnv.synthesize s = Except.ok au)
      ∧ (5 ≤ k → happyEnv.generate_subtitles s au = Except.ok sub)
      ∧ (6 ≤ k → happyEnv.create_image a = Except.ok bg)
      ∧ (7 ≤ k → happyEnv.build_metadata a s = Except.ok md)
      ∧ (8 ≤ k → happyEnv.compose au sub bg = Except.ok v) :=
  C8_stage_sequencing happyEnv cmdNone
